import Mathlib

/-!
Shallow embedding of the blenderseed add-on sources:

* `src/render/__init__.py` — the `RenderAppleseed` render engine: its session
  state (renderer, renderer controller, tile callback, render thread,
  interactive scene translator), the final-render start path, pause/stop
  teardown, the viewport draw path, the preview-renderer singleton, and the
  two AOV pass-declaration sites.
* `src/properties/materials.py` — the declarative material schemas:
  per-layer mixing-weight fields, the Ashikhmin-Shirley shininess fields,
  and the material aggregate's `layer_index` field.

Python objects held in engine attributes are modelled as `Option` values
(`None` ↦ `none`); the mutable status inside the renderer-controller object
is tracked in a separate state field `controller_status` so that the engine
attribute itself (the reference) and the object's content are distinguished,
exactly as in Python. Exceptions are modelled with `Except`; external calls
that may raise (`set_status`, `Thread.join`) are governed by an `Env` of
behaviour flags.
-/

namespace Blenderseed

/-- Status values of `asr.IRenderControllerStatus` used by the code. -/
inductive RCStatus where
  | ContinueRendering
  | AbortRendering
deriving DecidableEq, Repr

/-- Python exceptions that the embedded code can raise. -/
inductive PyExn where
  | assertionError
  | attributeError
  | externalError
deriving DecidableEq, Repr

/-- Behaviour of the external collaborators during one engine call:
whether `renderer_controller.set_status` raises, whether `Thread.join`
raises, the initial status a freshly built `FinalRendererController`
carries, and the pair returned by `check_view`. -/
structure Env where
  set_status_raises : Bool
  join_raises : Bool
  finalControllerInitStatus : RCStatus
  view_update_result : Bool
  camera_update_result : Bool
deriving DecidableEq, Repr

/-- The attribute state of one `RenderAppleseed` engine instance.
`controller_status` is the status stored inside the controller object
currently referenced by `renderer_controller` (meaningful only when that
reference is non-`none`). -/
structure EngineState where
  renderer : Option Unit
  renderer_controller : Option Unit
  controller_status : Option RCStatus
  tile_callback : Option Unit
  render_thread : Option Unit
  interactive_scene_translator : Option Unit
deriving DecidableEq, Repr

namespace RenderAppleseed

/-- `RenderAppleseed.__init__`: every session attribute starts as `None`. -/
def init : EngineState :=
  { renderer := none
    renderer_controller := none
    controller_status := none
    tile_callback := none
    render_thread := none
    interactive_scene_translator := none }

/-- `self.__renderer_controller.set_status(st)`: raises `AttributeError` when
the controller attribute is `None`, raises the external error when the
environment says the call raises, and otherwise stores the new status in the
controller object. -/
def set_status (env : Env) (s : EngineState) (st : RCStatus) :
    Except PyExn EngineState :=
  match s.renderer_controller with
  | none => .error .attributeError
  | some _ =>
      if env.set_status_raises then .error .externalError
      else .ok { s with controller_status := some st }

/-- `self.__render_thread.join()`: may raise per the environment; otherwise
it has no effect on engine attributes. -/
def thread_join (env : Env) (s : EngineState) : Except PyExn EngineState :=
  if env.join_raises then .error .externalError else .ok s

/-- The suite of the `try:` block shared by `__pause_rendering` and
`__stop_rendering`: `if self.__render_thread:` signal Abort to the
controller and join the thread. The result carries the state after whatever
mutations happened before any exception, plus the escaping exception if one
was raised (Python in-place mutations survive an exception). -/
def abort_join_body (env : Env) (s : EngineState) :
    EngineState × Option PyExn :=
  if s.render_thread.isSome then
    match set_status env s RCStatus.AbortRendering with
    | .error e => (s, some e)
    | .ok s1 =>
        match thread_join env s1 with
        | .error e => (s1, some e)
        | .ok s2 => (s2, none)
  else (s, none)

/-- `RenderAppleseed.__pause_rendering`: try to abort-and-join inside a
`try ... except: pass`, then unconditionally clear the thread handle.
The other session attributes are untouched. -/
def pause_rendering (env : Env) (s : EngineState) : Except PyExn EngineState :=
  let s1 := (abort_join_body env s).1
  .ok { s1 with render_thread := none }

/-- `RenderAppleseed.__stop_rendering`: same guarded abort-and-join, then
full cleanup — the thread, renderer, controller, and tile callback are all
cleared (dropping the controller also drops its status). -/
def stop_rendering (env : Env) (s : EngineState) : Except PyExn EngineState :=
  let s1 := (abort_join_body env s).1
  .ok { s1 with
        render_thread := none
        renderer := none
        renderer_controller := none
        controller_status := none
        tile_callback := none }

/-- `RenderAppleseed.__start_final_render`: four precondition assertions in
source order, then allocation of controller, tile callback, master renderer
and render thread; the host thread blocks polling the worker until it
finishes, and the call ends with `self.__stop_rendering()`. -/
def start_final_render (env : Env) (s : EngineState) :
    Except PyExn EngineState :=
  if s.renderer.isSome then .error .assertionError
  else if s.renderer_controller.isSome then .error .assertionError
  else if s.tile_callback.isSome then .error .assertionError
  else if s.render_thread.isSome then .error .assertionError
  else
    let s1 := { s with
                renderer_controller := some ()
                controller_status := some env.finalControllerInitStatus }
    let s2 := { s1 with tile_callback := some () }
    let s3 := { s2 with renderer := some () }
    let s4 := { s3 with render_thread := some () }
    stop_rendering env s4

/-- `RenderAppleseed.__restart_interactive_render`: set the controller status
to ContinueRendering (an unguarded attribute access) and start a fresh
worker thread. -/
def restart_interactive_render (env : Env) (s : EngineState) :
    Except PyExn EngineState := do
  let s1 ← set_status env s RCStatus.ContinueRendering
  .ok { s1 with render_thread := some () }

/-- Observable host-display actions performed by `view_draw`. -/
inductive DrawEvent where
  | bindShader
  | drawPixels (x y w h : Nat)
  | unbindShader
deriving DecidableEq, Repr

/-- `RenderAppleseed.view_draw`: unguarded
`self.__interactive_scene_translator.check_view(context)` (an
`AttributeError` when the translator is `None`), optional
pause / update_view / restart when the view or camera changed, then
`bind_display_space_shader`, `self.__tile_callback.draw_pixels(0, 0, w, h)`
(again unguarded) and `unbind_display_space_shader`. -/
def view_draw (env : Env) (width height : Nat) (s : EngineState) :
    Except PyExn (EngineState × List DrawEvent) :=
  match s.interactive_scene_translator with
  | none => .error .attributeError
  | some _ =>
      let draw : EngineState → Except PyExn (EngineState × List DrawEvent) :=
        fun t =>
          match t.tile_callback with
          | none => .error .attributeError
          | some _ =>
              .ok (t, [DrawEvent.bindShader,
                       DrawEvent.drawPixels 0 0 width height,
                       DrawEvent.unbindShader])
      if env.view_update_result || env.camera_update_result then do
        let s1 ← pause_rendering env s
        let s2 ← restart_interactive_render env s1
        draw s2
      else draw s

end RenderAppleseed

/-- Observable actions of one `__render_material_preview` call. -/
inductive PreviewEvent where
  | constructPreviewRenderer
  | translatePreview
  | updatePreview
  | startFinalRender
deriving DecidableEq, Repr

/-- `RenderAppleseed.__render_material_preview` at the process level: the
module global `_preview_renderer` (initially `None`) is the input and output;
when it is falsy a `PreviewRenderer` is constructed and `translate_preview`
runs, otherwise `update_preview` runs; either way the singleton's project is
handed to `self.__start_final_render`. -/
def render_material_preview (g : Option Unit) :
    Option Unit × List PreviewEvent :=
  match g with
  | none =>
      (some (), [PreviewEvent.constructPreviewRenderer,
                 PreviewEvent.translatePreview,
                 PreviewEvent.startFinalRender])
  | some r => (some r, [PreviewEvent.updatePreview,
                        PreviewEvent.startFinalRender])

/-- Iterate `render_material_preview` for a number of preview-render calls
within one host process, collecting the per-call event traces. -/
def run_material_previews :
    Option Unit → Nat → Option Unit × List (List PreviewEvent)
  | g, 0 => (g, [])
  | g, n + 1 =>
      let (g1, t) := render_material_preview g
      let (g2, ts) := run_material_previews g1 n
      (g2, t :: ts)

/-- The AOV toggle flags read from `scene.appleseed` by both pass sites. -/
structure AsrSceneProps where
  diffuse_aov : Bool
  direct_diffuse_aov : Bool
  indirect_diffuse_aov : Bool
  glossy_aov : Bool
  direct_glossy_aov : Bool
  indirect_glossy_aov : Bool
  albedo_aov : Bool
  emission_aov : Bool
  npr_shading_aov : Bool
  npr_contour_aov : Bool
  normal_aov : Bool
  uv_aov : Bool
  depth_aov : Bool
  pixel_time_aov : Bool
  invalid_samples_aov : Bool
  pixel_sample_count_aov : Bool
  pixel_variation_aov : Bool
deriving DecidableEq, Repr

/-- One `self.register_pass(scene, renderlayer, name, channels, chan_id,
channel_type)` call's arguments. -/
structure RegisteredPass where
  name : String
  channels : Nat
  chan_id : String
  channel_type : String
deriving DecidableEq, Repr

/-- One `self.add_pass(name, channels, chan_id)` call's arguments. -/
structure AddedPass where
  name : String
  channels : Nat
  chan_id : String
deriving DecidableEq, Repr

namespace RenderAppleseed

/-- `RenderAppleseed.update_render_passes`: in preview mode nothing is
registered; otherwise "Combined" is registered unconditionally and then one
pass per enabled AOV flag, in source order with the source's literal
arguments. -/
def update_render_passes (is_preview : Bool) (p : AsrSceneProps) :
    List RegisteredPass :=
  if is_preview then []
  else
    [RegisteredPass.mk "Combined" 4 "RGBA" "COLOR"]
    ++ (if p.diffuse_aov then [RegisteredPass.mk "Diffuse" 4 "RGBA" "COLOR"] else [])
    ++ (if p.direct_diffuse_aov then [RegisteredPass.mk "Direct Diffuse" 4 "RGBA" "COLOR"] else [])
    ++ (if p.indirect_diffuse_aov then [RegisteredPass.mk "Indirect Diffuse" 4 "RGBA" "COLOR"] else [])
    ++ (if p.glossy_aov then [RegisteredPass.mk "Glossy" 4 "RGBA" "COLOR"] else [])
    ++ (if p.direct_glossy_aov then [RegisteredPass.mk "Direct Glossy" 4 "RGBA" "COLOR"] else [])
    ++ (if p.indirect_glossy_aov then [RegisteredPass.mk "Indirect Glossy" 4 "RGBA" "COLOR"] else [])
    ++ (if p.albedo_aov then [RegisteredPass.mk "Albedo" 4 "RGBA" "COLOR"] else [])
    ++ (if p.emission_aov then [RegisteredPass.mk "Emission" 4 "RGBA" "COLOR"] else [])
    ++ (if p.npr_shading_aov then [RegisteredPass.mk "NPR Shading" 4 "RGBA" "COLOR"] else [])
    ++ (if p.npr_contour_aov then [RegisteredPass.mk "NPR Contour" 4 "RGBA" "COLOR"] else [])
    ++ (if p.normal_aov then [RegisteredPass.mk "Normal" 3 "RGB" "VECTOR"] else [])
    ++ (if p.uv_aov then [RegisteredPass.mk "UV" 3 "RGB" "VECTOR"] else [])
    ++ (if p.depth_aov then [RegisteredPass.mk "Z Depth" 1 "Z" "VALUE"] else [])
    ++ (if p.pixel_time_aov then [RegisteredPass.mk "Pixel Time" 1 "X" "VALUE"] else [])
    ++ (if p.invalid_samples_aov then [RegisteredPass.mk "Invalid Samples" 3 "RGB" "VECTOR"] else [])
    ++ (if p.pixel_sample_count_aov then [RegisteredPass.mk "Pixel Sample Count" 3 "RGB" "VECTOR"] else [])
    ++ (if p.pixel_variation_aov then [RegisteredPass.mk "Pixel Variation" 3 "RGB" "VECTOR"] else [])

/-- `RenderAppleseed.__add_render_passes`: one `add_pass` per enabled AOV
flag, in source order with the source's literal arguments. -/
def add_render_passes (p : AsrSceneProps) : List AddedPass :=
  (if p.diffuse_aov then [AddedPass.mk "Diffuse" 4 "RGBA"] else [])
  ++ (if p.direct_diffuse_aov then [AddedPass.mk "Direct Diffuse" 4 "RGBA"] else [])
  ++ (if p.indirect_diffuse_aov then [AddedPass.mk "Indirect Diffuse" 4 "RGBA"] else [])
  ++ (if p.glossy_aov then [AddedPass.mk "Glossy" 4 "RGBA"] else [])
  ++ (if p.direct_glossy_aov then [AddedPass.mk "Direct Glossy" 4 "RGBA"] else [])
  ++ (if p.indirect_glossy_aov then [AddedPass.mk "Indirect Glossy" 4 "RGBA"] else [])
  ++ (if p.normal_aov then [AddedPass.mk "Normal" 3 "RGB"] else [])
  ++ (if p.uv_aov then [AddedPass.mk "UV" 3 "RGB"] else [])
  ++ (if p.depth_aov then [AddedPass.mk "Z Depth" 1 "Z"] else [])
  ++ (if p.pixel_time_aov then [AddedPass.mk "Pixel Time" 1 "X"] else [])
  ++ (if p.invalid_samples_aov then [AddedPass.mk "Invalid Samples" 3 "RGB"] else [])
  ++ (if p.pixel_sample_count_aov then [AddedPass.mk "Pixel Sample Count" 3 "RGB"] else [])
  ++ (if p.pixel_variation_aov then [AddedPass.mk "Pixel Variation" 3 "RGB"] else [])
  ++ (if p.albedo_aov then [AddedPass.mk "Albedo" 4 "RGBA"] else [])
  ++ (if p.emission_aov then [AddedPass.mk "Emission" 4 "RGBA"] else [])
  ++ (if p.npr_shading_aov then [AddedPass.mk "NPR Shading" 4 "RGBA"] else [])
  ++ (if p.npr_contour_aov then [AddedPass.mk "NPR Contour" 4 "RGBA"] else [])

end RenderAppleseed

/-- One row of the result-pass registration table: the AOV flag's field name,
the flag accessor, and the registered pass. -/
structure RegEntry where
  flagName : String
  flag : AsrSceneProps → Bool
  pass : RegisteredPass

/-- One row of the render-pass addition table. -/
structure AddEntry where
  flagName : String
  flag : AsrSceneProps → Bool
  pass : AddedPass

/-- The AOV rows of `update_render_passes` (everything after the
unconditional "Combined"), in source order. -/
def regTable : List RegEntry :=
  [⟨"diffuse_aov", fun p => p.diffuse_aov, RegisteredPass.mk "Diffuse" 4 "RGBA" "COLOR"⟩,
   ⟨"direct_diffuse_aov", fun p => p.direct_diffuse_aov, RegisteredPass.mk "Direct Diffuse" 4 "RGBA" "COLOR"⟩,
   ⟨"indirect_diffuse_aov", fun p => p.indirect_diffuse_aov, RegisteredPass.mk "Indirect Diffuse" 4 "RGBA" "COLOR"⟩,
   ⟨"glossy_aov", fun p => p.glossy_aov, RegisteredPass.mk "Glossy" 4 "RGBA" "COLOR"⟩,
   ⟨"direct_glossy_aov", fun p => p.direct_glossy_aov, RegisteredPass.mk "Direct Glossy" 4 "RGBA" "COLOR"⟩,
   ⟨"indirect_glossy_aov", fun p => p.indirect_glossy_aov, RegisteredPass.mk "Indirect Glossy" 4 "RGBA" "COLOR"⟩,
   ⟨"albedo_aov", fun p => p.albedo_aov, RegisteredPass.mk "Albedo" 4 "RGBA" "COLOR"⟩,
   ⟨"emission_aov", fun p => p.emission_aov, RegisteredPass.mk "Emission" 4 "RGBA" "COLOR"⟩,
   ⟨"npr_shading_aov", fun p => p.npr_shading_aov, RegisteredPass.mk "NPR Shading" 4 "RGBA" "COLOR"⟩,
   ⟨"npr_contour_aov", fun p => p.npr_contour_aov, RegisteredPass.mk "NPR Contour" 4 "RGBA" "COLOR"⟩,
   ⟨"normal_aov", fun p => p.normal_aov, RegisteredPass.mk "Normal" 3 "RGB" "VECTOR"⟩,
   ⟨"uv_aov", fun p => p.uv_aov, RegisteredPass.mk "UV" 3 "RGB" "VECTOR"⟩,
   ⟨"depth_aov", fun p => p.depth_aov, RegisteredPass.mk "Z Depth" 1 "Z" "VALUE"⟩,
   ⟨"pixel_time_aov", fun p => p.pixel_time_aov, RegisteredPass.mk "Pixel Time" 1 "X" "VALUE"⟩,
   ⟨"invalid_samples_aov", fun p => p.invalid_samples_aov, RegisteredPass.mk "Invalid Samples" 3 "RGB" "VECTOR"⟩,
   ⟨"pixel_sample_count_aov", fun p => p.pixel_sample_count_aov, RegisteredPass.mk "Pixel Sample Count" 3 "RGB" "VECTOR"⟩,
   ⟨"pixel_variation_aov", fun p => p.pixel_variation_aov, RegisteredPass.mk "Pixel Variation" 3 "RGB" "VECTOR"⟩]

/-- The rows of `__add_render_passes`, in source order. -/
def addTable : List AddEntry :=
  [⟨"diffuse_aov", fun p => p.diffuse_aov, AddedPass.mk "Diffuse" 4 "RGBA"⟩,
   ⟨"direct_diffuse_aov", fun p => p.direct_diffuse_aov, AddedPass.mk "Direct Diffuse" 4 "RGBA"⟩,
   ⟨"indirect_diffuse_aov", fun p => p.indirect_diffuse_aov, AddedPass.mk "Indirect Diffuse" 4 "RGBA"⟩,
   ⟨"glossy_aov", fun p => p.glossy_aov, AddedPass.mk "Glossy" 4 "RGBA"⟩,
   ⟨"direct_glossy_aov", fun p => p.direct_glossy_aov, AddedPass.mk "Direct Glossy" 4 "RGBA"⟩,
   ⟨"indirect_glossy_aov", fun p => p.indirect_glossy_aov, AddedPass.mk "Indirect Glossy" 4 "RGBA"⟩,
   ⟨"normal_aov", fun p => p.normal_aov, AddedPass.mk "Normal" 3 "RGB"⟩,
   ⟨"uv_aov", fun p => p.uv_aov, AddedPass.mk "UV" 3 "RGB"⟩,
   ⟨"depth_aov", fun p => p.depth_aov, AddedPass.mk "Z Depth" 1 "Z"⟩,
   ⟨"pixel_time_aov", fun p => p.pixel_time_aov, AddedPass.mk "Pixel Time" 1 "X"⟩,
   ⟨"invalid_samples_aov", fun p => p.invalid_samples_aov, AddedPass.mk "Invalid Samples" 3 "RGB"⟩,
   ⟨"pixel_sample_count_aov", fun p => p.pixel_sample_count_aov, AddedPass.mk "Pixel Sample Count" 3 "RGB"⟩,
   ⟨"pixel_variation_aov", fun p => p.pixel_variation_aov, AddedPass.mk "Pixel Variation" 3 "RGB"⟩,
   ⟨"albedo_aov", fun p => p.albedo_aov, AddedPass.mk "Albedo" 4 "RGBA"⟩,
   ⟨"emission_aov", fun p => p.emission_aov, AddedPass.mk "Emission" 4 "RGBA"⟩,
   ⟨"npr_shading_aov", fun p => p.npr_shading_aov, AddedPass.mk "NPR Shading" 4 "RGBA"⟩,
   ⟨"npr_contour_aov", fun p => p.npr_contour_aov, AddedPass.mk "NPR Contour" 4 "RGBA"⟩]

/-- The passes a registration table produces for a given flag state. -/
def regTablePasses (p : AsrSceneProps) : List RegisteredPass :=
  (regTable.filter (fun e => e.flag p)).map RegEntry.pass

/-- The passes the addition table produces for a given flag state. -/
def addTablePasses (p : AsrSceneProps) : List AddedPass :=
  (addTable.filter (fun e => e.flag p)).map AddEntry.pass

/-- Row-by-row reading of a registration table: the rows whose flag is
enabled contribute their pass, in table order. -/
def rowsPassesR : List RegEntry → AsrSceneProps → List RegisteredPass
  | [], _ => []
  | e :: t, p => (if e.flag p then [e.pass] else []) ++ rowsPassesR t p

/-- Row-by-row reading of an addition table. -/
def rowsPassesA : List AddEntry → AsrSceneProps → List AddedPass
  | [], _ => []
  | e :: t, p => (if e.flag p then [e.pass] else []) ++ rowsPassesA t p

/-- The declaration data of one `bpy.props.FloatProperty` as written in
`src/properties/materials.py`: the `name` keyword, the default, and the hard
`min` / `max` bounds. Values are exact rationals. -/
structure FloatPropDef where
  name : String
  default : ℚ
  min : ℚ
  max : ℚ
deriving DecidableEq, Repr

/-- The declaration data of one `bpy.props.IntProperty`. -/
structure IntPropDef where
  name : String
  default : ℤ
  min : ℤ
  max : ℤ
deriving DecidableEq, Repr

/-- Modelled from the spec: the host property system is not part of this
repository; per the spec, "out-of-range edits are clamped by the min/max
bounds declared per field", so a write of `v` stores the clamp of `v` to
the declared hard bounds. -/
def floatPropWrite (f : FloatPropDef) (v : ℚ) : ℚ :=
  max f.min (min f.max v)

/-- Modelled from the spec: the same host-side clamping for integer
properties ("out-of-range edits are clamped by the min/max bounds declared
per field"). The write ignores everything but the declared bounds — in
particular the size of any sibling collection. -/
def intPropWrite (f : IntPropDef) (v : ℤ) : ℤ :=
  max f.min (min f.max v)

namespace AppleseedMatLayerProps

/-- `diffuse_btdf_weight` declaration. -/
def diffuse_btdf_weight : FloatPropDef :=
  { name := "diffuse_btdf_weight", default := 1, min := 0, max := 1 }

/-- `kelemen_brdf_weight` declaration. -/
def kelemen_brdf_weight : FloatPropDef :=
  { name := "kelemen_brdf_weight", default := 1, min := 0, max := 1 }

/-- `ashikhmin_brdf_weight` declaration. -/
def ashikhmin_brdf_weight : FloatPropDef :=
  { name := "ashikhmin_brdf_weight", default := 1, min := 0, max := 1 }

/-- `blinn_brdf_weight` declaration. -/
def blinn_brdf_weight : FloatPropDef :=
  { name := "blinn_brdf_weight", default := 1, min := 0, max := 1 }

/-- `glass_bsdf_weight` declaration. -/
def glass_bsdf_weight : FloatPropDef :=
  { name := "glass_bsdf_weight", default := 1, min := 0, max := 1 }

/-- `metal_brdf_weight` declaration. -/
def metal_brdf_weight : FloatPropDef :=
  { name := "metal_brdf_weight", default := 1, min := 0, max := 1 }

/-- `plastic_brdf_weight` declaration. -/
def plastic_brdf_weight : FloatPropDef :=
  { name := "plastic_brdf_weight", default := 1, min := 0, max := 1 }

/-- `lambertian_brdf_weight` declaration. -/
def lambertian_brdf_weight : FloatPropDef :=
  { name := "lambertian_brdf_weight", default := 1, min := 0, max := 1 }

/-- `orennayar_brdf_weight` declaration. -/
def orennayar_brdf_weight : FloatPropDef :=
  { name := "orennayar_brdf_weight", default := 1, min := 0, max := 1 }

/-- `specular_brdf_weight` declaration. -/
def specular_brdf_weight : FloatPropDef :=
  { name := "specular_brdf_weight", default := 1, min := 0, max := 1 }

/-- `sheen_brdf_weight` declaration. -/
def sheen_brdf_weight : FloatPropDef :=
  { name := "sheen_brdf_weight", default := 1, min := 0, max := 1 }

/-- `glossy_brdf_weight` declaration. -/
def glossy_brdf_weight : FloatPropDef :=
  { name := "glossy_brdf_weight", default := 1, min := 0, max := 1 }

/-- `specular_btdf_weight` declaration. -/
def specular_btdf_weight : FloatPropDef :=
  { name := "specular_btdf_weight", default := 1, min := 0, max := 1 }

/-- `disney_brdf_weight` declaration. -/
def disney_brdf_weight : FloatPropDef :=
  { name := "disney_brdf_weight", default := 1, min := 0, max := 1 }

/-- `ashikhmin_brdf_shininess_u` declaration. -/
def ashikhmin_brdf_shininess_u : FloatPropDef :=
  { name := "ashikhmin_brdf_shininess_u", default := 200, min := 0, max := 1000 }

/-- `ashikhmin_brdf_shininess_v` declaration: note the `name` keyword in the
source reads "ashikhmin_brdf_shininess_u". -/
def ashikhmin_brdf_shininess_v : FloatPropDef :=
  { name := "ashikhmin_brdf_shininess_u", default := 200, min := 0, max := 1000 }

end AppleseedMatLayerProps

/-- The mixing-weight declarations of the 14 selectable layer kinds, in
source order. -/
def weightFields : List FloatPropDef :=
  [AppleseedMatLayerProps.diffuse_btdf_weight,
   AppleseedMatLayerProps.kelemen_brdf_weight,
   AppleseedMatLayerProps.ashikhmin_brdf_weight,
   AppleseedMatLayerProps.blinn_brdf_weight,
   AppleseedMatLayerProps.glass_bsdf_weight,
   AppleseedMatLayerProps.metal_brdf_weight,
   AppleseedMatLayerProps.plastic_brdf_weight,
   AppleseedMatLayerProps.lambertian_brdf_weight,
   AppleseedMatLayerProps.orennayar_brdf_weight,
   AppleseedMatLayerProps.specular_brdf_weight,
   AppleseedMatLayerProps.sheen_brdf_weight,
   AppleseedMatLayerProps.glossy_brdf_weight,
   AppleseedMatLayerProps.specular_btdf_weight,
   AppleseedMatLayerProps.disney_brdf_weight]

namespace AppleseedMatProps

/-- `layer_index` declaration on the material aggregate. -/
def layer_index : IntPropDef :=
  { name := "layer_index", default := 0, min := 0, max := 16 }

end AppleseedMatProps

/-- Writing `layer_index` on a material whose `layers` collection currently
holds `layerCount` layers: the declared bounds alone decide the stored
value; the collection size parameter is present only to state its
irrelevance. -/
def layer_index_write (_layerCount : Nat) (v : ℤ) : ℤ :=
  intPropWrite AppleseedMatProps.layer_index v

/-- A concrete external-collaborator behaviour: nothing raises, the final
controller starts in ContinueRendering, the view is unchanged. -/
def env0 : Env :=
  { set_status_raises := false
    join_raises := false
    finalControllerInitStatus := RCStatus.ContinueRendering
    view_update_result := false
    camera_update_result := false }

/-- A concrete engine state with a fully populated session. -/
def sRun : EngineState :=
  { renderer := some ()
    renderer_controller := some ()
    controller_status := some RCStatus.ContinueRendering
    tile_callback := some ()
    render_thread := some ()
    interactive_scene_translator := none }

/-- Scene props with every AOV flag enabled. -/
def allAovsOn : AsrSceneProps :=
  ⟨true, true, true, true, true, true, true, true, true, true, true, true,
   true, true, true, true, true⟩

/-- Scene props with every AOV flag disabled. -/
def allAovsOff : AsrSceneProps :=
  ⟨false, false, false, false, false, false, false, false, false, false,
   false, false, false, false, false, false, false⟩

end Blenderseed

namespace Blenderseed

open RenderAppleseed

lemma abort_join_body_state (env : Env) (s : EngineState) :
    (abort_join_body env s).1 = s ∨
    (abort_join_body env s).1 =
      { s with controller_status := some RCStatus.AbortRendering } := by
  by_cases ht : s.render_thread.isSome
  · rcases hc : s.renderer_controller with _ | c
    · left
      simp [abort_join_body, set_status, ht, hc]
    · by_cases hs : env.set_status_raises
      · left
        simp [abort_join_body, set_status, ht, hc, hs]
      · by_cases hj : env.join_raises <;>
        · right
          simp [abort_join_body, set_status, thread_join, ht, hc, hs, hj]
  · left
    simp [abort_join_body, ht]

lemma abort_join_body_signals (env : Env) (s : EngineState)
    (ht : s.render_thread.isSome) (hc : s.renderer_controller.isSome)
    (hs : env.set_status_raises = false) :
    (abort_join_body env s).1 =
      { s with controller_status := some RCStatus.AbortRendering } := by
  rcases hco : s.renderer_controller with _ | c
  · rw [hco] at hc
    simp at hc
  · by_cases hj : env.join_raises <;>
      simp [abort_join_body, set_status, thread_join, ht, hco, hs, hj]

lemma stop_rendering_spec (env : Env) (s : EngineState) :
    stop_rendering env s =
      .ok ⟨none, none, none, none, none, s.interactive_scene_translator⟩ := by
  obtain ⟨r, rc, cs, tc, rt, ist⟩ := s
  rcases abort_join_body_state env ⟨r, rc, cs, tc, rt, ist⟩ with h | h <;>
    simp [stop_rendering, h]

lemma pause_rendering_frame (env : Env) (s : EngineState) :
    ∃ u, pause_rendering env s = .ok u ∧ u.render_thread = none ∧
      u.renderer = s.renderer ∧ u.renderer_controller = s.renderer_controller ∧
      u.tile_callback = s.tile_callback ∧
      u.interactive_scene_translator = s.interactive_scene_translator := by
  obtain ⟨r, rc, cs, tc, rt, ist⟩ := s
  rcases abort_join_body_state env ⟨r, rc, cs, tc, rt, ist⟩ with h | h
  · exact ⟨⟨r, rc, cs, tc, none, ist⟩,
      by simp [pause_rendering, h], rfl, rfl, rfl, rfl, rfl⟩
  · exact ⟨⟨r, rc, some RCStatus.AbortRendering, tc, none, ist⟩,
      by simp [pause_rendering, h], rfl, rfl, rfl, rfl, rfl⟩

lemma pause_rendering_signals (env : Env) (s : EngineState)
    (ht : s.render_thread.isSome) (hc : s.renderer_controller.isSome)
    (hs : env.set_status_raises = false) :
    pause_rendering env s =
      .ok { s with controller_status := some RCStatus.AbortRendering
                   render_thread := none } := by
  simp [pause_rendering, abort_join_body_signals env s ht hc hs]

lemma start_final_render_error (env : Env) (s : EngineState)
    (h : s.renderer.isSome ∨ s.renderer_controller.isSome ∨
         s.tile_callback.isSome ∨ s.render_thread.isSome) :
    start_final_render env s = .error PyExn.assertionError := by
  by_cases h1 : s.renderer.isSome
  · simp [start_final_render, h1]
  · by_cases h2 : s.renderer_controller.isSome
    · simp [start_final_render, h1, h2]
    · by_cases h3 : s.tile_callback.isSome
      · simp [start_final_render, h1, h2, h3]
      · by_cases h4 : s.render_thread.isSome
        · simp [start_final_render, h1, h2, h3, h4]
        · rcases h with h | h | h | h <;> simp_all

lemma start_final_render_ok (env : Env) (s : EngineState)
    (h1 : s.renderer = none) (h2 : s.renderer_controller = none)
    (h3 : s.tile_callback = none) (h4 : s.render_thread = none) :
    start_final_render env s =
      .ok ⟨none, none, none, none, none, s.interactive_scene_translator⟩ := by
  obtain ⟨r, rc, cs, tc, rt, ist⟩ := s
  cases h1
  cases h2
  cases h3
  cases h4
  simp only [start_final_render, Option.isSome_none, Bool.false_eq_true,
    if_false, reduceIte]
  exact stop_rendering_spec env _

lemma start_final_render_ok_inv (env : Env) (s t : EngineState)
    (h : start_final_render env s = .ok t) :
    t = ⟨none, none, none, none, none, s.interactive_scene_translator⟩ := by
  by_cases h1 : s.renderer.isSome
  · rw [start_final_render_error env s (Or.inl h1)] at h
    cases h
  · by_cases h2 : s.renderer_controller.isSome
    · rw [start_final_render_error env s (Or.inr (Or.inl h2))] at h
      cases h
    · by_cases h3 : s.tile_callback.isSome
      · rw [start_final_render_error env s (Or.inr (Or.inr (Or.inl h3)))] at h
        cases h
      · by_cases h4 : s.render_thread.isSome
        · rw [start_final_render_error env s (Or.inr (Or.inr (Or.inr h4)))] at h
          cases h
        · rw [start_final_render_ok env s (Option.not_isSome_iff_eq_none.mp h1)
            (Option.not_isSome_iff_eq_none.mp h2)
            (Option.not_isSome_iff_eq_none.mp h3)
            (Option.not_isSome_iff_eq_none.mp h4)] at h
          exact (Except.ok.injEq _ _ ▸ h).symm

lemma rowsPassesR_eq_filter (t : List RegEntry) (p : AsrSceneProps) :
    rowsPassesR t p = (t.filter (fun e => e.flag p)).map RegEntry.pass := by
  induction t with
  | nil => rfl
  | cons e t ih =>
      by_cases h : e.flag p <;> simp [rowsPassesR, List.filter_cons, h, ih]

lemma rowsPassesA_eq_filter (t : List AddEntry) (p : AsrSceneProps) :
    rowsPassesA t p = (t.filter (fun e => e.flag p)).map AddEntry.pass := by
  induction t with
  | nil => rfl
  | cons e t ih =>
      by_cases h : e.flag p <;> simp [rowsPassesA, List.filter_cons, h, ih]

lemma update_render_passes_eq_rows (p : AsrSceneProps) :
    update_render_passes false p =
      RegisteredPass.mk "Combined" 4 "RGBA" "COLOR" :: rowsPassesR regTable p := by
  simp only [update_render_passes, rowsPassesR, regTable, Bool.false_eq_true,
    if_false, List.append_assoc, List.cons_append, List.nil_append,
    List.append_nil]

lemma update_render_passes_eq_table (p : AsrSceneProps) :
    update_render_passes false p =
      RegisteredPass.mk "Combined" 4 "RGBA" "COLOR" :: regTablePasses p := by
  rw [update_render_passes_eq_rows, regTablePasses, rowsPassesR_eq_filter]

lemma add_render_passes_eq_rows (p : AsrSceneProps) :
    add_render_passes p = rowsPassesA addTable p := by
  simp only [add_render_passes, rowsPassesA, addTable, List.append_assoc,
    List.cons_append, List.nil_append, List.append_nil]

lemma add_render_passes_eq_table (p : AsrSceneProps) :
    add_render_passes p = addTablePasses p := by
  rw [add_render_passes_eq_rows, addTablePasses, rowsPassesA_eq_filter]

lemma clamp01_spec (v : ℚ) :
    (v < 0 → max (0 : ℚ) (min 1 v) = 0) ∧
    (1 < v → max (0 : ℚ) (min 1 v) = 1) ∧
    (0 ≤ v → v ≤ 1 → max (0 : ℚ) (min 1 v) = v) := by
  refine ⟨fun h => ?_, fun h => ?_, fun h1 h2 => ?_⟩
  · rw [min_eq_right (by linarith), max_eq_left (by linarith)]
  · rw [min_eq_left (by linarith), max_eq_right (by norm_num)]
  · rw [min_eq_right h2, max_eq_right h1]

lemma run_material_previews_some (n : Nat) :
    run_material_previews (some ()) n =
      (some (), List.replicate n
        [PreviewEvent.updatePreview, PreviewEvent.startFinalRender]) := by
  induction n with
  | zero => rfl
  | succ k ih =>
      simp [run_material_previews, render_material_preview, ih,
        List.replicate_succ]

/-- C1: `__start_final_render` asserts that none of the four session fields
(renderer, renderer controller, tile callback, render thread) is populated:
a call with any field non-empty is rejected with an assertion failure, never
a silent success, and with all four empty no assertion fails and the call
returns normally. -/
theorem c1_start_final_render_preconditions (env : Env) (s : EngineState) :
    ((s.renderer.isSome ∨ s.renderer_controller.isSome ∨
        s.tile_callback.isSome ∨ s.render_thread.isSome) →
      start_final_render env s = .error PyExn.assertionError) ∧
    (s.renderer = none → s.renderer_controller = none → s.tile_callback = none →
      s.render_thread = none → ∃ t, start_final_render env s = .ok t) := by
  refine ⟨start_final_render_error env s, fun h1 h2 h3 h4 => ?_⟩
  exact ⟨_, start_final_render_ok env s h1 h2 h3 h4⟩

/-- Witness for C1 at a fully populated session state and at the constructor
state. -/
theorem c1_start_final_render_preconditions_witness :
    start_final_render env0 sRun = .error PyExn.assertionError ∧
    ∃ t, start_final_render env0 RenderAppleseed.init = .ok t :=
  ⟨(c1_start_final_render_preconditions env0 sRun).1 (Or.inl rfl),
   (c1_start_final_render_preconditions env0 RenderAppleseed.init).2
     rfl rfl rfl rfl⟩

/-- C2: a completed final render has torn down all four session fields, so a
second final render on the same engine satisfies the start precondition and
succeeds; a pause clears only the thread handle and leaves the renderer,
controller and tile-callback references unchanged. -/
theorem c2_teardown_enables_second_render (env env2 : Env) (s t : EngineState)
    (h : start_final_render env s = .ok t) :
    (t.renderer = none ∧ t.renderer_controller = none ∧
     t.tile_callback = none ∧ t.render_thread = none) ∧
    (∃ u, start_final_render env2 t = .ok u) ∧
    (∀ (envP : Env) (sP : EngineState), ∃ u,
      pause_rendering envP sP = .ok u ∧ u.render_thread = none ∧
      u.renderer = sP.renderer ∧
      u.renderer_controller = sP.renderer_controller ∧
      u.tile_callback = sP.tile_callback) := by
  have ht := start_final_render_ok_inv env s t h
  subst ht
  refine ⟨⟨rfl, rfl, rfl, rfl⟩,
    ⟨_, start_final_render_ok env2 _ rfl rfl rfl rfl⟩, fun envP sP => ?_⟩
  obtain ⟨u, hu, h1, h2, h3, h4, _⟩ := pause_rendering_frame envP sP
  exact ⟨u, hu, h1, h2, h3, h4⟩

/-- Witness for C2: a final render from the constructor state succeeds and a
second one succeeds afterwards. -/
theorem c2_teardown_enables_second_render_witness :
    ∃ u, start_final_render env0
      (⟨none, none, none, none, none, none⟩ : EngineState) = .ok u :=
  (c2_teardown_enables_second_render env0 env0 RenderAppleseed.init
    (⟨none, none, none, none, none, none⟩ : EngineState) rfl).2.1

/-- C3: pause and stop never raise to their caller: both always return
successfully with the thread handle cleared; when a worker thread and a
controller exist and the abort signal itself does not raise, the controller
is signalled to Abort (exceptions during signal/join are swallowed either
way). -/
theorem c3_teardown_never_raises (env : Env) (s : EngineState) :
    (∃ u, pause_rendering env s = .ok u ∧ u.render_thread = none) ∧
    (∃ u, stop_rendering env s = .ok u ∧ u.render_thread = none) ∧
    (s.render_thread.isSome → s.renderer_controller.isSome →
      env.set_status_raises = false →
      pause_rendering env s =
        .ok { s with controller_status := some RCStatus.AbortRendering,
                     render_thread := none }) := by
  refine ⟨?_, ⟨_, stop_rendering_spec env s, rfl⟩, pause_rendering_signals env s⟩
  obtain ⟨u, hu, h1, _⟩ := pause_rendering_frame env s
  exact ⟨u, hu, h1⟩

/-- Witness for C3 at a running session with a benign environment. -/
theorem c3_teardown_never_raises_witness :
    pause_rendering env0 sRun =
      .ok { sRun with controller_status := some RCStatus.AbortRendering,
                      render_thread := none } :=
  (c3_teardown_never_raises env0 sRun).2.2 rfl rfl rfl

/-- C4: across any number of preview-render calls in one host process (the
module-level singleton starts as None), the first call alone constructs the
singleton and runs the initial translation, every later call runs only the
incremental update, and every call hands the project to the final render
path. -/
theorem c4_preview_singleton_trace (n : Nat) :
    run_material_previews none (n + 1) =
      (some (), [PreviewEvent.constructPreviewRenderer,
                 PreviewEvent.translatePreview,
                 PreviewEvent.startFinalRender] ::
        List.replicate n [PreviewEvent.updatePreview,
                          PreviewEvent.startFinalRender]) := by
  simp [run_material_previews, render_material_preview,
    run_material_previews_some]

/-- C5: in preview mode `update_render_passes` registers nothing; otherwise
it registers "Combined" (4 channels, RGBA, COLOR) unconditionally, followed
by exactly the passes of the fixed AOV table whose flag is enabled and none
for a disabled flag; with all flags off only "Combined" is registered, with
all flags on the whole table follows it. -/
theorem c5_update_render_passes_spec :
    (∀ p, update_render_passes true p = []) ∧
    (∀ p, update_render_passes false p =
      RegisteredPass.mk "Combined" 4 "RGBA" "COLOR" :: regTablePasses p) ∧
    update_render_passes false allAovsOff =
      [RegisteredPass.mk "Combined" 4 "RGBA" "COLOR"] ∧
    update_render_passes false allAovsOn =
      RegisteredPass.mk "Combined" 4 "RGBA" "COLOR" ::
        regTable.map RegEntry.pass :=
  ⟨fun _ => rfl, update_render_passes_eq_table, rfl, rfl⟩

/-- C6: the two AOV declaration sites are consistent: any flag handled at
both sites is declared with the same pass name and channel count; in
particular "Z Depth" is 1 channel and "Normal" 3 channels at both sites;
both call sites compute exactly their tables. -/
theorem c6_pass_tables_consistent :
    ((regTable.map (fun e => (e.flagName, e.pass.name, e.pass.channels))).all
      (fun r =>
        (addTable.map
          (fun a => (a.flagName, a.pass.name, a.pass.channels))).all
        (fun a =>
          !(r.1 == a.1) || ((r.2.1 == a.2.1) && (r.2.2 == a.2.2)))) = true) ∧
    ((regTable.filter (fun e => e.flagName == "depth_aov")).map
        (fun e => (e.pass.name, e.pass.channels)) = [("Z Depth", 1)]) ∧
    ((addTable.filter (fun e => e.flagName == "depth_aov")).map
        (fun e => (e.pass.name, e.pass.channels)) = [("Z Depth", 1)]) ∧
    ((regTable.filter (fun e => e.flagName == "normal_aov")).map
        (fun e => (e.pass.name, e.pass.channels)) = [("Normal", 3)]) ∧
    ((addTable.filter (fun e => e.flagName == "normal_aov")).map
        (fun e => (e.pass.name, e.pass.channels)) = [("Normal", 3)]) ∧
    (∀ p, update_render_passes false p =
      RegisteredPass.mk "Combined" 4 "RGBA" "COLOR" :: regTablePasses p) ∧
    (∀ p, add_render_passes p = addTablePasses p) :=
  ⟨by decide, by decide, by decide, by decide, by decide,
   update_render_passes_eq_table, add_render_passes_eq_table⟩

/-- C7: every one of the 14 layer kinds' mixing-weight declarations has
default 1.0 and hard range [0.0, 1.0]; a write below the range stores 0, a
write above stores 1, and an in-range write is stored unchanged. -/
theorem c7_weight_fields_clamped (f : FloatPropDef) (hf : f ∈ weightFields) :
    (f.default = 1 ∧ f.min = 0 ∧ f.max = 1) ∧
    ∀ v : ℚ, (v < 0 → floatPropWrite f v = 0) ∧
             (1 < v → floatPropWrite f v = 1) ∧
             (0 ≤ v → v ≤ 1 → floatPropWrite f v = v) := by
  have hb : f.default = 1 ∧ f.min = 0 ∧ f.max = 1 := by
    fin_cases hf <;> exact ⟨rfl, rfl, rfl⟩
  refine ⟨hb, fun v => ?_⟩
  unfold floatPropWrite
  rw [hb.2.1, hb.2.2]
  exact clamp01_spec v

/-- Witness for C7 at the Diffuse BTDF weight with out-of-range writes. -/
theorem c7_weight_fields_clamped_witness :
    AppleseedMatLayerProps.diffuse_btdf_weight ∈ weightFields ∧
    floatPropWrite AppleseedMatLayerProps.diffuse_btdf_weight 2 = 1 ∧
    floatPropWrite AppleseedMatLayerProps.diffuse_btdf_weight (-1) = 0 := by
  have hm : AppleseedMatLayerProps.diffuse_btdf_weight ∈ weightFields :=
    List.mem_cons_self _ _
  exact ⟨hm, ((c7_weight_fields_clamped _ hm).2 2).2.1 (by norm_num),
         ((c7_weight_fields_clamped _ hm).2 (-1)).1 (by norm_num)⟩

/-- C8: `layer_index` declares default 0 with hard range [0, 16]; every
write stores a value in [0, 16], and the stored value does not depend on the
number of layers in the collection. -/
theorem c8_layer_index_bounds :
    AppleseedMatProps.layer_index.default = 0 ∧
    AppleseedMatProps.layer_index.min = 0 ∧
    AppleseedMatProps.layer_index.max = 16 ∧
    (∀ (n : Nat) (v : ℤ),
      0 ≤ layer_index_write n v ∧ layer_index_write n v ≤ 16) ∧
    (∀ (n m : Nat) (v : ℤ), layer_index_write n v = layer_index_write m v) := by
  refine ⟨rfl, rfl, rfl, fun n v => ?_, fun n m v => rfl⟩
  show (0 : ℤ) ≤ max 0 (min 16 v) ∧ max (0 : ℤ) (min 16 v) ≤ 16
  exact ⟨le_max_left _ _, max_le (by norm_num) (min_le_left _ _)⟩

/-- C9: the Ashikhmin-Shirley shininess-U and shininess-V declarations are
two separate fields, each with range 0–1000 and default 200, but the `name`
keyword of shininess-V repeats "ashikhmin_brdf_shininess_u", so the second
field carries no identifying label of its own. -/
theorem c9_ashikhmin_shininess_labels :
    AppleseedMatLayerProps.ashikhmin_brdf_shininess_u.min = 0 ∧
    AppleseedMatLayerProps.ashikhmin_brdf_shininess_u.max = 1000 ∧
    AppleseedMatLayerProps.ashikhmin_brdf_shininess_u.default = 200 ∧
    AppleseedMatLayerProps.ashikhmin_brdf_shininess_v.min = 0 ∧
    AppleseedMatLayerProps.ashikhmin_brdf_shininess_v.max = 1000 ∧
    AppleseedMatLayerProps.ashikhmin_brdf_shininess_v.default = 200 ∧
    AppleseedMatLayerProps.ashikhmin_brdf_shininess_v.name =
      AppleseedMatLayerProps.ashikhmin_brdf_shininess_u.name ∧
    AppleseedMatLayerProps.ashikhmin_brdf_shininess_v.name =
      "ashikhmin_brdf_shininess_u" ∧
    AppleseedMatLayerProps.ashikhmin_brdf_shininess_v.name ≠
      "ashikhmin_brdf_shininess_v" :=
  ⟨rfl, rfl, rfl, rfl, rfl, rfl, rfl, rfl, by decide⟩

/-- C10: the constructor leaves both the interactive scene translator and
the tile callback empty, and `view_draw` on any state without a translator
fails with an AttributeError on the translator dereference instead of
silently drawing nothing. -/
theorem c10_view_draw_needs_session :
    RenderAppleseed.init.interactive_scene_translator = none ∧
    RenderAppleseed.init.tile_callback = none ∧
    ∀ (env : Env) (w h : Nat) (s : EngineState),
      s.interactive_scene_translator = none →
      view_draw env w h s = .error PyExn.attributeError := by
  refine ⟨rfl, rfl, fun env w h s hs => ?_⟩
  simp [view_draw, hs]

/-- Witness for C10 at a fresh engine instance. -/
theorem c10_view_draw_needs_session_witness :
    view_draw env0 640 480 RenderAppleseed.init = .error PyExn.attributeError :=
  c10_view_draw_needs_session.2.2 env0 640 480 RenderAppleseed.init rfl

end Blenderseed
